import Mathlib

/-!
Shallow embedding of the type-is runtime type-introspection library
(src/src/typeis.js and src/src/index.js) together with proofs about its
predicates.

JS values are modelled by the inductive JSValue below.  JS numbers are
modelled by JSNum: NaN, the two infinities, negative zero, and a finite
rational value (positive zero is JSNum.finite 0); this captures exactly
the number operations the library performs (strict equality, finiteness,
remainder modulo 1, reciprocal).  Objects and functions carry a reference
id — strict equality between objects is reference identity — together
with the attributes the library inspects: the Array.isArray flag, the
numeric value of the length property when present, the number of own
enumerable string keys (what Object.keys returns), and the constructor
name (getConstructorName: the constructor property's name when the value
is defined and that constructor is callable, else the null marker,
modelled as none).
-/

namespace TypeIs

/-- The numbers of the JS runtime, as far as the library observes them. -/
inductive JSNum where
  | nan
  | posInf
  | negInf
  | negZero
  | finite (q : ℚ)
deriving DecidableEq

namespace JSNum

/-- Finiteness of a JS number (what the global isFinite reports on an
actual number): negative zero and every finite value, excluding NaN and
the infinities. -/
def isFin : JSNum → Bool
  | negZero => true
  | finite _ => true
  | _ => false

end JSNum

/-- Strict equality (===) between two JS numbers: NaN equals nothing,
-0 === +0, and finite values compare by numeric value. -/
def numEq : JSNum → JSNum → Bool
  | .posInf, .posInf => true
  | .negInf, .negInf => true
  | .negZero, .negZero => true
  | .negZero, .finite q => q == 0
  | .finite q, .negZero => q == 0
  | .finite q, .finite r => q == r
  | _, _ => false

/-- JS 1 / x for a number x: 1 / +0 is Infinity, 1 / -0 is -Infinity,
1 / ±Infinity is ±0, 1 / NaN is NaN. -/
def recip : JSNum → JSNum
  | .nan => .nan
  | .posInf => .finite 0
  | .negInf => .negZero
  | .negZero => .negInf
  | .finite q => if q = 0 then .posInf else .finite q⁻¹

/-- Truncation of a rational toward zero (JS remainder x % 1 equals
x minus its truncation toward zero). -/
def ratTrunc (q : ℚ) : ℤ :=
  if 0 ≤ q.num then ((q.num.natAbs / q.den : ℕ) : ℤ)
  else -((q.num.natAbs / q.den : ℕ) : ℤ)

/-- JS x % 1 for a number x: NaN for NaN and the infinities, -0 for -0
and for negative integers, +0 for nonnegative integers, and the
sign-preserving fractional part otherwise. -/
def mod1 : JSNum → JSNum
  | .nan => .nan
  | .posInf => .nan
  | .negInf => .nan
  | .negZero => .negZero
  | .finite q =>
      if q.den = 1 then (if q.num < 0 then .negZero else .finite 0)
      else .finite (q - (ratTrunc q : ℚ))

/-- The attributes of a JS (non-function) object that the library
inspects.  ref is the reference identity; lengthProp is the numeric
value of the length property when present (none models an absent or
undefined length); keysCount is the number of own enumerable string
keys, i.e. the length of Object.keys; ctorName is the name of the
constructor property when it is a function (none models a missing or
non-callable constructor, e.g. Object.create(null)). -/
structure JSObject where
  ref : ℕ
  isArr : Bool
  lengthProp : Option JSNum
  keysCount : ℕ
  ctorName : Option String
deriving DecidableEq

/-- The attributes of a JS function value that the library inspects:
reference identity, arity (the value of the length property), own
enumerable key count, and constructor name (ordinarily "Function",
"GeneratorFunction" or "AsyncFunction"). -/
structure JSFunc where
  ref : ℕ
  arity : ℕ
  keysCount : ℕ
  ctorName : Option String
deriving DecidableEq

/-- A JS runtime value, one constructor per typeof kind plus null and
the array-bearing object kind. -/
inductive JSValue where
  | vnull
  | vundefined
  | vnum (n : JSNum)
  | vstr (s : String)
  | vbool (b : Bool)
  | vbigint (i : ℤ)
  | vsymbol (id : ℕ)
  | vobj (o : JSObject)
  | vfunc (f : JSFunc)
deriving DecidableEq

/-- JS strict equality (===): value equality on primitives (with the
±0 and NaN rules on numbers), reference identity on objects and
functions, false across kinds. -/
def strictEq : JSValue → JSValue → Bool
  | .vnull, .vnull => true
  | .vundefined, .vundefined => true
  | .vnum m, .vnum n => numEq m n
  | .vstr s, .vstr t => s == t
  | .vbool a, .vbool b => a == b
  | .vbigint i, .vbigint j => i == j
  | .vsymbol i, .vsymbol j => i == j
  | .vobj o, .vobj p => o.ref == p.ref
  | .vfunc f, .vfunc g => f.ref == g.ref
  | _, _ => false

/-- The typeof operator.  typeof null is "object". -/
def jsTypeof : JSValue → String
  | .vnull => "object"
  | .vundefined => "undefined"
  | .vnum _ => "number"
  | .vstr _ => "string"
  | .vbool _ => "boolean"
  | .vbigint _ => "bigint"
  | .vsymbol _ => "symbol"
  | .vobj _ => "object"
  | .vfunc _ => "function"

/-- The global isFinite applied to a value.  In the source every call is
guarded by a typeof number check with short-circuiting, so only the
number case is ever reached; the other arms are unreachable. -/
def jsIsFinite : JSValue → Bool
  | .vnum n => n.isFin
  | _ => false

/-- src/src/typeis.js isDefined: (value !== null) && (value !== void 0). -/
def isDefined (value : JSValue) : Bool :=
  !strictEq value .vnull && !strictEq value .vundefined

/-- src/src/typeis.js isEmpty: (value === undefined) || (value === null). -/
def isEmpty (value : JSValue) : Bool :=
  strictEq value .vundefined || strictEq value .vnull

/-- src/src/typeis.js isNull: value === null. -/
def isNull (value : JSValue) : Bool :=
  strictEq value .vnull

/-- src/src/typeis.js isUndefined: value === void 0. -/
def isUndefined (value : JSValue) : Bool :=
  strictEq value .vundefined

/-- src/src/typeis.js isNumber: (typeof value === "number") && isFinite(value). -/
def isNumber (value : JSValue) : Bool :=
  (jsTypeof value == "number") && jsIsFinite value

/-- src/src/typeis.js isString: typeof value === "string". -/
def isString (value : JSValue) : Bool :=
  jsTypeof value == "string"

/-- src/src/typeis.js isFunction: typeof value === "function". -/
def isFunction (value : JSValue) : Bool :=
  jsTypeof value == "function"

/-- src/src/typeis.js isObject: (value !== null) && (typeof value === "object"). -/
def isObject (value : JSValue) : Bool :=
  !strictEq value .vnull && (jsTypeof value == "object")

/-- src/src/typeis.js isSymbol: typeof value === "symbol". -/
def isSymbol (value : JSValue) : Bool :=
  jsTypeof value == "symbol"

/-- src/src/typeis.js isBigInt: typeof value === "bigint". -/
def isBigInt (value : JSValue) : Bool :=
  jsTypeof value == "bigint"

/-- src/src/typeis.js isFiniteNumber: (typeof value === "number") && isFinite(value). -/
def isFiniteNumber (value : JSValue) : Bool :=
  (jsTypeof value == "number") && jsIsFinite value

/-- src/src/typeis.js isArray = Array.isArray: true exactly for array
exotic objects. -/
def isArray : JSValue → Bool
  | .vobj o => o.isArr
  | _ => false

/-- src/src/typeis.js getConstructorName: value.constructor.name when the
value is defined and its constructor is a function, else null (none).
Primitives box to their wrapper objects, whose constructors are the
native Number, String, Boolean, BigInt and Symbol functions. -/
def getConstructorName : JSValue → Option String
  | .vnull => none
  | .vundefined => none
  | .vnum _ => some ("Number")
  | .vstr _ => some ("String")
  | .vbool _ => some ("Boolean")
  | .vbigint _ => some ("BigInt")
  | .vsymbol _ => some ("Symbol")
  | .vobj o => o.ctorName
  | .vfunc f => f.ctorName

/-- Reading value.length as the library does: the character count for a
string, the stored length attribute for an object, the arity for a
function; none models undefined (primitives have no length property;
null and undefined would throw, but every read in the source is
unreachable for them because of an isEmpty short-circuit). -/
def lengthProp : JSValue → Option JSNum
  | .vstr s => some (.finite s.length)
  | .vobj o => o.lengthProp
  | .vfunc f => some (.finite f.arity)
  | _ => none

/-- value.length === 0: false when the length property is absent
(undefined === 0 is false). -/
def lengthIsZero (v : JSValue) : Bool :=
  match lengthProp v with
  | some n => numEq n (.finite 0)
  | none => false

/-- Object.keys(value).length: the number of own enumerable string keys.
Strings enumerate their character indices; primitives box to wrapper
objects with no own enumerable keys, so they give 0.  Object.keys of
null or undefined would throw, but in the source the only call site is
short-circuited behind isEmpty, so those arms are unreachable. -/
def keysLength : JSValue → ℕ
  | .vstr s => s.length
  | .vobj o => o.keysCount
  | .vfunc f => f.keysCount
  | _ => 0

/-- src/src/typeis.js isZeroValue:
isEmpty(value) || (value === 0) || (value.length === 0)
|| (Object.keys(value).length === 0). -/
def isZeroValue (value : JSValue) : Bool :=
  isEmpty value
  || strictEq value (.vnum (.finite 0))
  || lengthIsZero value
  || (keysLength value == 0)

/-- src/src/typeis.js isNonZeroValue: !isZeroValue(value). -/
def isNonZeroValue (value : JSValue) : Bool :=
  !isZeroValue value

/-- The reciprocal comparison 1 / a === 1 / b of isEquals.  It is only
reached when isNumber(a) holds and a === b, which forces both sides to
be numbers; the catch-all arm is unreachable. -/
def recipEq : JSValue → JSValue → Bool
  | .vnum m, .vnum n => numEq (recip m) (recip n)
  | _, _ => false

/-- src/src/typeis.js isEquals:
if isNumber(a): if a === b then 1 / a === 1 / b
else (a !== a) && (b !== b); otherwise a === b. -/
def isEquals (a b : JSValue) : Bool :=
  if isNumber a then
    if strictEq a b then recipEq a b
    else (!strictEq a a) && (!strictEq b b)
  else strictEq a b

/-- src/src/typeis.js isPromise:
isFunction(value) && (getConstructorName(value) === "Promise"). -/
def isPromise (value : JSValue) : Bool :=
  isFunction value && (getConstructorName value == some ("Promise"))

/-- The module scope of src/src/typeis.js contains no binding named
value: the body of isFloat reads a free identifier. -/
def moduleValueBinding : Option JSValue := none

/-- The test (value % 1) !== 0 of isFloat and the negation of the isInt
test.  Only reached behind an isNumber short-circuit, so the non-number
arm is unreachable. -/
def valueModOneNotZero : JSValue → Bool
  | .vnum n => !numEq (mod1 n) (.finite 0)
  | _ => false

/-- src/src/typeis.js isFloat(params): its body is
isNumber(value) && ((value % 1) !== 0), but the enclosing module binds
no identifier named value (the parameter is named params), so in strict
module code every call throws a ReferenceError. -/
def isFloat (params : JSValue) : Except String Bool :=
  match moduleValueBinding with
  | none => Except.error ("ReferenceError: value is not defined")
  | some value => Except.ok (isNumber value && valueModOneNotZero value)

/-- The body of isFloat with the free identifier value bound to the
actual parameter: the corrected behavior the spec prescribes
(operate on the actual argument). -/
def isFloatFixed (value : JSValue) : Bool :=
  isNumber value && valueModOneNotZero value

/-- src/src/index.js typeis: "null" if isNull, else "array" if isArray,
else typeof value. -/
def typeis (value : JSValue) : String :=
  if isNull value then "null"
  else if isArray value then "array"
  else jsTypeof value

/-- A constructor function as seen by isExtendOf: protoChain lists the
reference identities of subClass.prototype, Object.getPrototypeOf of it,
and so on until the chain reaches null (an empty list models a
constructor whose prototype is already null-ish).  The head of the list
is the identity of the constructor's own prototype object. -/
structure JSCtor where
  protoChain : List ℕ
deriving DecidableEq

/-- The loop of isExtendOf: current ranges over the prototype chain of
the subclass, each step compared by reference with superClass.prototype
(none when the superclass has no prototype object; current is truthy
inside the loop, so it never matches none). -/
def chainWalk : List ℕ → Option ℕ → Bool
  | [], _ => false
  | c :: rest, target => if some c = target then true else chainWalk rest target

/-- src/src/typeis.js isExtendOf: walk current from subClass.prototype
along getPrototypeOf links; return true as soon as
current === superClass.prototype, false when the chain is exhausted. -/
def isExtendOf (subClass superClass : JSCtor) : Bool :=
  chainWalk subClass.protoChain superClass.protoChain.head?

/-! ### Concrete sample values used by the theorems -/

/-- The array [1, 2]: an array object of length 2 with two own
enumerable index keys. -/
def sampleArray : JSValue := .vobj ⟨2, true, some (.finite 2), 2, some ("Array")⟩

/-- A plain anonymous function value of arity 0 with no own enumerable
keys. -/
def sampleFunction : JSValue := .vfunc ⟨3, 0, 0, some ("Function")⟩

/-- A Promise instance, as produced by Promise.resolve(): an object
whose constructor name is "Promise" (and not a function). -/
def samplePromise : JSValue := .vobj ⟨4, false, none, 0, some ("Promise")⟩

/-- An empty plain object literal. -/
def sampleObjA : JSValue := .vobj ⟨5, false, none, 0, some ("Object")⟩

/-- A second empty plain object literal, a reference distinct from
sampleObjA. -/
def sampleObjB : JSValue := .vobj ⟨6, false, none, 0, some ("Object")⟩

/-- The rational 7/2, i.e. the JS number 3.5, given in lowest terms. -/
def ratThreeHalves : ℚ := ⟨7, 2, by decide, by decide⟩

/-- A constructor whose prototype chain is its own prototype object
followed by Object.prototype. -/
def sampleCtor : JSCtor := ⟨[0, 1]⟩

/-! ### Helper lemmas -/

lemma beq_swap {α : Type _} [BEq α] [LawfulBEq α] (a b : α) : (a == b) = (b == a) := by
  by_cases h : a = b
  · subst h; rfl
  · rw [beq_eq_false_iff_ne.mpr h, beq_eq_false_iff_ne.mpr (Ne.symm h)]

lemma numEq_symm (m n : JSNum) : numEq m n = numEq n m := by
  cases m <;> cases n <;> first
    | rfl
    | exact beq_swap _ _

lemma recipEq_symm (a b : JSValue) : recipEq a b = recipEq b a := by
  cases a <;> cases b <;> first
    | rfl
    | exact numEq_symm _ _

lemma strictEq_symm (a b : JSValue) : strictEq a b = strictEq b a := by
  cases a <;> cases b <;> first
    | rfl
    | exact numEq_symm _ _
    | exact beq_swap _ _

lemma numEq_not_fin {m n : JSNum} (hm : m.isFin = true) (hn : n.isFin = false) :
    numEq m n = false := by
  cases m <;> cases n <;> simp_all [JSNum.isFin, numEq]

lemma isNumber_shape {v : JSValue} (h : isNumber v = true) :
    ∃ n, v = .vnum n ∧ n.isFin = true := by
  cases v <;> simp_all [isNumber, jsTypeof, jsIsFinite]

lemma strictEq_self_of_isNumber {a : JSValue} (h : isNumber a = true) :
    strictEq a a = true := by
  obtain ⟨n, rfl, hfin⟩ := isNumber_shape h
  cases n <;> simp_all [JSNum.isFin, strictEq, numEq]

lemma strictEq_num_not_num {a b : JSValue} (ha : isNumber a = true)
    (hb : isNumber b = false) : strictEq a b = false := by
  obtain ⟨m, rfl, hm⟩ := isNumber_shape ha
  cases b <;> try rfl
  case vnum n =>
    have hn : n.isFin = false := by
      simpa [isNumber, jsTypeof, jsIsFinite] using hb
    exact numEq_not_fin hm hn

lemma isEquals_of_isNumber {a : JSValue} (ha : isNumber a = true) (b : JSValue) :
    isEquals a b = (strictEq a b && recipEq a b) := by
  unfold isEquals
  rw [ha]
  by_cases hab : strictEq a b = true
  · simp [hab]
  · have hab' : strictEq a b = false := by
      cases h : strictEq a b
      · rfl
      · exact absurd h hab
    simp [hab', strictEq_self_of_isNumber ha]

lemma isEquals_of_not_isNumber {a : JSValue} (ha : isNumber a = false)
    (b : JSValue) : isEquals a b = strictEq a b := by
  unfold isEquals
  rw [ha]
  simp

lemma isEmpty_true_iff (v : JSValue) :
    isEmpty v = true ↔ v = .vnull ∨ v = .vundefined := by
  cases v <;> simp [isEmpty, strictEq]

lemma lengthIsZero_true_iff (v : JSValue) :
    lengthIsZero v = true ↔
      ∃ n, lengthProp v = some n ∧ numEq n (.finite 0) = true := by
  cases h : lengthProp v <;> simp [lengthIsZero, h]

lemma chainWalk_true_iff (l : List ℕ) (t : Option ℕ) :
    chainWalk l t = true ↔ ∃ p, t = some p ∧ p ∈ l := by
  induction l with
  | nil => simp [chainWalk]
  | cons c rest ih =>
      by_cases h : some c = t
      · subst h
        simp [chainWalk]
      · rw [show chainWalk (c :: rest) t = chainWalk rest t by
              simp [chainWalk, h], ih]
        constructor
        · rintro ⟨p, hp, hm⟩
          exact ⟨p, hp, List.mem_cons_of_mem c hm⟩
        · rintro ⟨p, hp, hm⟩
          rcases List.mem_cons.mp hm with hm | hm
          · subst hm
            exact absurd hp.symm h
          · exact ⟨p, hp, hm⟩

/-! ### Spec-side descriptions for refinement-style claims -/

/-- Spec-side description for C4: the argument is a finite number whose
remainder modulo 1 is not 0, i.e. a finite non-integral number. -/
def FloatDesc : JSValue → Prop
  | .vnum (.finite q) => ¬ ∃ k : ℤ, q = (k : ℚ)
  | _ => False

/-- Spec-side description for the amended C6: the value is null or
undefined, or is === 0, or its length property is === 0, or its
Object.keys count is zero. -/
def ZeroValueDesc (v : JSValue) : Prop :=
  v = .vnull ∨ v = .vundefined
  ∨ strictEq v (.vnum (.finite 0)) = true
  ∨ (∃ n, lengthProp v = some n ∧ numEq n (.finite 0) = true)
  ∨ keysLength v = 0

/-! ### Claim theorems -/

/-- C1: evaluation of isEquals at the sample pairs of the claim.  The
code returns false at (NaN, NaN): isNumber requires finiteness, so
isNumber(NaN) is false and the plain identity branch runs, where
NaN === NaN is false — contradicting the claimed
isEquals(NaN, NaN) == true (the both-sides-fail-self-equality clause
sits behind the isNumber(a) guard and can never fire).  The other four
sample equalities hold as claimed. -/
theorem c1_isEquals_samples_eval :
    isEquals (.vnum .nan) (.vnum .nan) = false
    ∧ isEquals (.vnum (.finite 0)) (.vnum .negZero) = false
    ∧ isEquals (.vnum (.finite 1)) (.vnum (.finite 1)) = true
    ∧ isEquals (.vstr ("a")) (.vstr ("a")) = true
    ∧ isEquals sampleObjA sampleObjB = false := by
  refine ⟨by decide, by decide, ?_, by decide, by decide⟩
  simp [isEquals, isNumber, jsTypeof, jsIsFinite, JSNum.isFin, strictEq,
    numEq, recipEq, recip]

/-- C2: the dispatcher typeis is a total function into the listed tag
strings, and the six sample classifications of the claim hold. -/
theorem c2_typeis_total_and_samples :
    (∀ v, typeis v ∈ ["null", "array", "number", "string", "boolean",
        "function", "object", "bigint", "symbol", "undefined"])
    ∧ typeis .vnull = "null"
    ∧ typeis sampleArray = "array"
    ∧ typeis (.vnum (.finite 42)) = "number"
    ∧ typeis (.vstr ("x")) = "string"
    ∧ typeis .vundefined = "undefined"
    ∧ typeis sampleFunction = "function" := by
  refine ⟨?_, by decide, by decide, by decide, by decide, by decide, by decide⟩
  intro v
  cases v
  case vobj o =>
    cases h : o.isArr <;> simp [typeis, isNull, isArray, strictEq, jsTypeof, h]
  all_goals simp [typeis, isNull, isArray, strictEq, jsTypeof]

/-- C3: the claim that every exported predicate returns a boolean
without raising fails at isFloat: its body reads the undeclared
identifier value (its parameter is named params), so every call — here
isFloat(3) — throws a ReferenceError instead of returning a boolean. -/
theorem c3_isFloat_raises :
    isFloat (.vnum (.finite 3)) =
      Except.error ("ReferenceError: value is not defined") := rfl

/-- C4: isFloat operating on its actual argument (isFloatFixed, the
source body with the free identifier bound to the parameter) returns
true exactly on finite numbers whose remainder modulo 1 is not 0; in
particular it is true at 3.5 and false at 3. -/
theorem c4_isFloatFixed_characterization :
    (∀ v, isFloatFixed v = true ↔ FloatDesc v)
    ∧ isFloatFixed (.vnum (.finite ratThreeHalves)) = true
    ∧ isFloatFixed (.vnum (.finite 3)) = false := by
  have main : ∀ v, isFloatFixed v = true ↔ FloatDesc v := by
    intro v
    cases v with
    | vnum n =>
        cases n with
        | finite q =>
            have hstep : isFloatFixed (.vnum (.finite q)) =
                !numEq (mod1 (.finite q)) (.finite 0) := by
              simp [isFloatFixed, isNumber, jsTypeof, jsIsFinite,
                JSNum.isFin, valueModOneNotZero]
            by_cases hd : q.den = 1
            · have hex : ∃ k : ℤ, q = (k : ℚ) :=
                ⟨q.num, ((Rat.den_eq_one_iff q).mp hd).symm⟩
              have hmod : numEq (mod1 (.finite q)) (.finite 0) = true := by
                by_cases hn : q.num < 0 <;> simp [mod1, hd, hn, numEq]
              rw [hstep, hmod]
              simp [FloatDesc]
              exact hex
            · have hne : ¬ ∃ k : ℤ, q = (k : ℚ) := by
                rintro ⟨k, rfl⟩
                exact hd (Rat.den_intCast k)
              have hsub : ¬ q - (ratTrunc q : ℚ) = 0 := by
                intro h0
                have hq : q = (ratTrunc q : ℚ) := by linarith
                refine hd ?_
                rw [hq]
                exact Rat.den_intCast _
              have hmod : numEq (mod1 (.finite q)) (.finite 0) = false := by
                simp [mod1, hd, numEq, beq_eq_false_iff_ne, hsub]
              rw [hstep, hmod]
              simp [FloatDesc]
              exact fun k hk => hne ⟨k, hk⟩
        | nan =>
            simp [isFloatFixed, isNumber, jsTypeof, jsIsFinite,
              JSNum.isFin, FloatDesc]
        | posInf =>
            simp [isFloatFixed, isNumber, jsTypeof, jsIsFinite,
              JSNum.isFin, FloatDesc]
        | negInf =>
            simp [isFloatFixed, isNumber, jsTypeof, jsIsFinite,
              JSNum.isFin, FloatDesc]
        | negZero =>
            simp [isFloatFixed, isNumber, jsTypeof, jsIsFinite,
              JSNum.isFin, valueModOneNotZero, mod1, numEq, FloatDesc]
    | vnull => simp [isFloatFixed, isNumber, jsTypeof, FloatDesc]
    | vundefined => simp [isFloatFixed, isNumber, jsTypeof, FloatDesc]
    | vstr s => simp [isFloatFixed, isNumber, jsTypeof, FloatDesc]
    | vbool b => simp [isFloatFixed, isNumber, jsTypeof, FloatDesc]
    | vbigint i => simp [isFloatFixed, isNumber, jsTypeof, FloatDesc]
    | vsymbol i => simp [isFloatFixed, isNumber, jsTypeof, FloatDesc]
    | vobj o => simp [isFloatFixed, isNumber, jsTypeof, FloatDesc]
    | vfunc f => simp [isFloatFixed, isNumber, jsTypeof, FloatDesc]
  refine ⟨main, ?_, by decide⟩
  refine (main _).mpr ?_
  rintro ⟨k, hk⟩
  have hd := congrArg Rat.den hk
  rw [Rat.den_intCast] at hd
  exact absurd hd (by decide)

/-- C5: evaluation of isPromise at a Promise instance.  The code demands
isFunction(value), so it returns false at an object whose constructor
name is "Promise" — the exact value of Promise.resolve() — denying the
claimed contract. -/
theorem c5_isPromise_rejects_promise_instance :
    getConstructorName samplePromise = some ("Promise")
    ∧ isPromise samplePromise = false := by decide

/-- Counterexample to C6 as stated: the nonzero number 5 is a zero value
for the code, because Object.keys(5) is empty and the final clause of
isZeroValue applies to every value, not only to plain objects. -/
theorem c6_counterexample_five_is_zeroValue :
    isZeroValue (.vnum (.finite 5)) = true := by decide

/-- C6 (amended): isZeroValue(v) is true exactly when v is null or
undefined, or v === 0, or v has a length property === 0, or
Object.keys(v) has length zero — the key-count clause applies to every
non-empty value, so primitives without own enumerable keys (among them
nonzero numbers and booleans such as true) are zero values too; and
isNonZeroValue is the strict logical complement of isZeroValue. -/
theorem c6_isZeroValue_characterization :
    (∀ v, isZeroValue v = true ↔ ZeroValueDesc v)
    ∧ (∀ v, isNonZeroValue v = !isZeroValue v)
    ∧ isZeroValue (.vbool true) = true := by
  refine ⟨?_, fun v => rfl, by decide⟩
  intro v
  simp only [isZeroValue, Bool.or_eq_true, isEmpty_true_iff,
    lengthIsZero_true_iff, beq_iff_eq, ZeroValueDesc, or_assoc]

/-- Counterexample to C7 as stated: called with one and the same
constructor on both sides, isExtendOf returns true, not false — the walk
starts at the subclass's own prototype object, which is already the
superclass's prototype. -/
theorem c7_counterexample_self_extendOf :
    isExtendOf sampleCtor sampleCtor = true := by decide

/-- C7 (amended): isExtendOf(sub, sup) is true exactly when sup's
prototype object occurs, by reference, in the chain that starts at sub's
own prototype; consequently, for one and the same constructor it returns
true whenever the constructor has a prototype at all (and false only
for an empty chain). -/
theorem c7_isExtendOf_characterization :
    (∀ subC supC : JSCtor, isExtendOf subC supC = true ↔
      ∃ p, supC.protoChain.head? = some p ∧ p ∈ subC.protoChain)
    ∧ (∀ c : JSCtor, isExtendOf c c = !c.protoChain.isEmpty) := by
  constructor
  · intro subC supC
    exact chainWalk_true_iff _ _
  · intro c
    rcases c with ⟨l⟩
    cases l with
    | nil => rfl
    | cons a rest => simp [isExtendOf, chainWalk]

/-- C8: for every value, isNull and isUndefined never hold together,
isEmpty is their disjunction, and isDefined is the negation of
isEmpty. -/
theorem c8_definedness_partition :
    ∀ v, ((isNull v && isUndefined v) = false)
    ∧ (isEmpty v = (isNull v || isUndefined v))
    ∧ (isDefined v = !isEmpty v) := by
  intro v
  cases v <;> simp [isNull, isUndefined, isEmpty, isDefined, strictEq]

/-- C9: isNumber and isFiniteNumber are extensionally equal; both hold
exactly on the finite numbers (everything but NaN and the two
infinities), and both reject NaN, Infinity and -Infinity. -/
theorem c9_isNumber_eq_isFiniteNumber :
    (∀ v, isNumber v = isFiniteNumber v)
    ∧ (∀ v, isNumber v = true ↔
        ∃ n, v = .vnum n ∧ n ≠ .nan ∧ n ≠ .posInf ∧ n ≠ .negInf)
    ∧ isNumber (.vnum .nan) = false ∧ isFiniteNumber (.vnum .nan) = false
    ∧ isNumber (.vnum .posInf) = false ∧ isFiniteNumber (.vnum .posInf) = false
    ∧ isNumber (.vnum .negInf) = false ∧ isFiniteNumber (.vnum .negInf) = false := by
  refine ⟨fun v => rfl, ?_, by decide, by decide, by decide, by decide,
    by decide, by decide⟩
  intro v
  cases v <;> simp [isNumber, jsTypeof, jsIsFinite]
  case vnum n => cases n <;> simp [JSNum.isFin]

/-- C10: isEquals is symmetric, although only its first argument is
tested with isNumber to pick the comparison branch. -/
theorem c10_isEquals_symm : ∀ a b, isEquals a b = isEquals b a := by
  intro a b
  cases ha : isNumber a <;> cases hb : isNumber b
  · rw [isEquals_of_not_isNumber ha b, isEquals_of_not_isNumber hb a,
      strictEq_symm]
  · rw [isEquals_of_not_isNumber ha b, isEquals_of_isNumber hb a,
      strictEq_num_not_num hb ha, strictEq_symm a b,
      strictEq_num_not_num hb ha]
    rfl
  · rw [isEquals_of_isNumber ha b, isEquals_of_not_isNumber hb a,
      strictEq_num_not_num ha hb, strictEq_symm b a,
      strictEq_num_not_num ha hb]
    rfl
  · rw [isEquals_of_isNumber ha b, isEquals_of_isNumber hb a,
      strictEq_symm a b, recipEq_symm a b]

end TypeIs
